import Mathlib

/-!
Verification of the DeepNova code-quality analysis pipeline
(`backend/app/services`): language detection, syntax validation, the
bounded auto-correction loop, complexity / structural / security / risk
estimation, and the two-version comparison engine.

The Python sources are shallowly embedded as executable Lean functions.
External collaborators are modelled as explicit parameters:

* the AI client (`app/utils/ai_client.py` exposes `chat` and
  `openai_json`) is a record of pure functions `AIClient`; the concrete
  `StubAIClient` is embedded as `stubClient`;
* Python's `ast.parse` is an oracle `PyParseFn : String → Except String PyMod`
  returning either the parse-error message (`str(exc)`) or the parsed
  module, where `PyMod` mirrors exactly the node shapes inspected by the
  engine's AST visitors (function defs, calls, for/while loops,
  comprehensions, everything else).

Python floats are modelled as rationals, Python ints as Nat/Int, and
Python's falsy-`or` defaulting is made explicit (`pyOrStr`, `pyOrOpt`).
`splitlines` is modelled for newline-separated text and `strip`/`lower`
for ASCII text, which covers every string the engine manipulates.
-/

/-! ## Character/string helpers mirroring the Python string primitives -/

/-- The single-quote character `'`. -/
def singleQuoteChar : Char := Char.ofNat 39

/-- The double-quote character `"`. -/
def doubleQuoteChar : Char := Char.ofNat 34

/-- The backtick character. -/
def backtickChar : Char := Char.ofNat 96

/-- Test whether `p` is a prefix of `l`. -/
def listHasPrefix : List Char → List Char → Bool
  | [], _ => true
  | _ :: _, [] => false
  | p :: ps, c :: cs => p = c && listHasPrefix ps cs

/-- Python's `pat in l` substring test over character lists. -/
def listContainsSub (pat : List Char) : List Char → Bool
  | [] => listHasPrefix pat []
  | c :: cs => listHasPrefix pat (c :: cs) || listContainsSub pat cs

/-- Python's `pat in s` substring containment. -/
def containsSub (s pat : String) : Bool := listContainsSub pat.toList s.toList

/-- Fuelled non-overlapping substring counter (Python `str.count`). -/
def listCountSubFuel (pat : List Char) : Nat → List Char → Nat
  | 0, _ => 0
  | _ + 1, [] => 0
  | fuel + 1, c :: cs =>
    if listHasPrefix pat (c :: cs) then
      1 + listCountSubFuel pat fuel (List.drop (pat.length - 1) cs)
    else
      listCountSubFuel pat fuel cs

/-- Python's `s.count(pat)` for a non-empty pattern. -/
def countSub (s pat : String) : Nat :=
  listCountSubFuel pat.toList s.toList.length s.toList

/-- Python's `s.lower()` (ASCII). -/
def lowerStr (s : String) : String := String.mk (s.toList.map Char.toLower)

/-- Python's `s.strip()` (ASCII whitespace). -/
def trimChars (s : String) : String :=
  String.mk (((s.toList.dropWhile Char.isWhitespace).reverse.dropWhile
    Char.isWhitespace).reverse)

/-- Python's `s[:n]` character-prefix slice. -/
def strTake (s : String) (n : Nat) : String := String.mk (s.toList.take n)

/-- Python's `s.startswith(pat)`. -/
def strStartsWith (s pat : String) : Bool := listHasPrefix pat.toList s.toList

/-- Python's `s.endswith(pat)`. -/
def strEndsWith (s pat : String) : Bool :=
  listHasPrefix pat.toList.reverse s.toList.reverse

/-- Split a character list at every occurrence of `c`, keeping empty parts. -/
def splitOnChar (c : Char) : List Char → List (List Char)
  | [] => [[]]
  | x :: xs =>
    if x = c then [] :: splitOnChar c xs
    else
      match splitOnChar c xs with
      | [] => [[x]]
      | g :: gs => (x :: g) :: gs

/-- Python's `s.splitlines()` for newline-separated text: no trailing empty
line when the text ends with a newline, and `[]` on the empty string. -/
def splitlines (s : String) : List String :=
  if s.toList.isEmpty then []
  else
    let parts := (splitOnChar (Char.ofNat 10) s.toList).map String.mk
    if s.toList.getLast? = some (Char.ofNat 10) then parts.dropLast else parts

/-- Python's falsy `or` on a string: `s or d`. -/
def pyOrStr (s d : String) : String := if s = "" then d else s

/-- Python's falsy `or` applied to `dict.get`: `o.get(k) or d` where a
missing key or an empty string both fall back to the default. -/
def pyOrOpt (o : Option String) (d : String) : String :=
  match o with
  | some s => if s = "" then d else s
  | none => d

/-- Python's `s.split()[0]`: first whitespace-separated token. -/
def firstToken (s : String) : String :=
  String.mk ((s.toList.dropWhile Char.isWhitespace).takeWhile
    (fun c => !c.isWhitespace))

/-- Insertion into an ascending list of strings (for Python's `sorted`). -/
def insertSorted (x : String) : List String → List String
  | [] => [x]
  | y :: ys => if x ≤ y then x :: y :: ys else y :: insertSorted x ys

/-- Ascending sort of a list of strings, mirroring Python's `sorted`. -/
def sortStrings (l : List String) : List String := l.foldr insertSorted []

/-! ## `app/services/validators.py` -/

/-- Embeds `ValidationResult` from `validators.py` (`{valid, error}`). -/
structure ValidationResult where
  valid : Bool
  error : Option String
deriving DecidableEq, Repr

mutual
/-- The result of Python's `ast.parse`: nodes mirroring what the engine's
visitors inspect. `call`'s first argument is `some f` when the called
expression is a plain name `f` (`ast.Name`); `whileLoop` carries the
`ast.unparse` text of the whole loop; `comp` stands for the comprehension
nodes (`ListComp`/`SetComp`/`DictComp`); `other` is any other node, with
its child nodes. -/
inductive PyNode where
  | functionDef : String → PyNodes → PyNode
  | call : Option String → PyNodes → PyNode
  | forLoop : PyNodes → PyNode
  | whileLoop : String → PyNodes → PyNode
  | comp : PyNodes → PyNode
  | other : PyNodes → PyNode
inductive PyNodes where
  | nil : PyNodes
  | cons : PyNode → PyNodes → PyNodes
end

/-- A parsed module is its top-level node list. -/
abbrev PyMod := PyNodes

/-- Oracle for Python's `ast.parse`: either the `SyntaxError` message
(`str(exc)`) or the parsed module. -/
abbrev PyParseFn := String → Except String PyMod

/-- Embeds `_balanced_brackets`: stack-based matching of `(){}[]`. -/
def balancedAux : List Char → List Char → Bool
  | stack, [] => stack.isEmpty
  | stack, ch :: rest =>
    if ch = '(' ∨ ch = '{' ∨ ch = '[' then balancedAux (ch :: stack) rest
    else if ch = ')' then
      match stack with
      | '(' :: s => balancedAux s rest
      | _ => false
    else if ch = '}' then
      match stack with
      | '{' :: s => balancedAux s rest
      | _ => false
    else if ch = ']' then
      match stack with
      | '[' :: s => balancedAux s rest
      | _ => false
    else balancedAux stack rest

/-- Embeds `_balanced_brackets` from `validators.py`. -/
def balancedBrackets (code : String) : Bool := balancedAux [] code.toList

/-- Embeds `_balanced_quotes`: even counts of single quotes, double quotes and
backticks. -/
def balancedQuotes (code : String) : Bool :=
  code.toList.count singleQuoteChar % 2 = 0 ∧
    code.toList.count doubleQuoteChar % 2 = 0 ∧
    code.toList.count backtickChar % 2 = 0

/-- The fixed semicolon-terminated language set in `validate_code`. -/
def semicolonLangs : List String :=
  ["javascript", "typescript", "java", "c", "cpp", "c++"]

/-- Non-blank lines of a snippet (`[ln for ln in code.splitlines() if ln.strip()]`). -/
def nonBlankLines (code : String) : List String :=
  (splitlines code).filter (fun ln => trimChars ln ≠ "")

/-- Embeds `validate_code` from `validators.py`, with `ast.parse` supplied as the
oracle `parse`. -/
def validate_code (parse : PyParseFn) (language code : String) : ValidationResult :=
  let lang := lowerStr (trimChars language)
  if trimChars code = "" then ⟨false, some "Empty code"⟩
  else if lang = "generic" ∨ lang = "" then ⟨true, none⟩
  else if lang = "py" ∨ lang = "python" then
    match parse code with
    | .error e => ⟨false, some e⟩
    | .ok _ => ⟨true, none⟩
  else if balancedBrackets code = false then
    ⟨false, some "Unbalanced brackets/braces"⟩
  else if balancedQuotes code = false then
    ⟨false, some "Unbalanced quotes"⟩
  else if 3 ≤ (nonBlankLines code).length ∧ containsSub code ";" = false ∧
      lang ∈ semicolonLangs then
    ⟨false, some "No semicolons found in multi-line code"⟩
  else ⟨true, none⟩

/-! ## `app/services/language_detector.py` -/

/-- The fixed signal table of `detect_language`, in dict insertion order. -/
def languageSignals : List (String × List String) :=
  [("python", ["def ", "import ", "print(", "async def", "self", "elif ", "lambda "]),
   ("javascript", ["console.log", "function ", "=>", "var ", "let ", "const "]),
   ("java", ["public class", "system.out", "public static void"]),
   ("cpp", ["#include", "std::", "cout<<", "cout <<"]),
   ("c", ["printf(", "scanf(", "int main("]),
   ("typescript", ["interface ", "type ", ": string", ": number"])]

/-- Result record with language and confidence returned by `detect_language`. -/
structure DetectionResult where
  language : String
  confidence : ℚ
deriving DecidableEq, Repr

/-- Embeds `detect_language` from `language_detector.py`. -/
def detect_language (code : String) : DetectionResult :=
  let snippet := lowerStr code
  let scores := languageSignals.map
    (fun lp => (lp.1, (lp.2.filter (fun pat => containsSub snippet pat)).length))
  let best := scores.foldl
    (fun (acc : String × Nat) p => if p.2 > acc.2 then p else acc) ("generic", 0)
  if best.2 = 0 then ⟨"generic", 0⟩
  else
    let total := ((languageSignals.lookup best.1).getD []).length
    let maxPossible := if total = 0 then 1 else total
    ⟨best.1, min 1 (mkRat (best.2 : Int) maxPossible)⟩

/-! ## `_estimate_big_o` and `_estimate_space_complexity`
(`analysis_engine.py`): AST visitors over the parse oracle's output. -/

/-- The mutable state of `ComplexityVisitor` in `_estimate_big_o`. -/
structure VisitState where
  loopDepth : Nat
  maxLoopDepth : Nat
  selfCalls : List (String × Nat)
  currentFunc : Option String
  hasLogLoop : Bool
deriving DecidableEq, Repr

/-- Embeds `dict.setdefault(name, 0)` on the per-function self-call table. -/
def setdefaultZero (m : List (String × Nat)) (name : String) : List (String × Nat) :=
  if (m.lookup name).isSome then m else m ++ [(name, 0)]

/-- Increment the self-call count of `name` (`self_calls_per_func[f] += 1`). -/
def bumpCount (m : List (String × Nat)) (name : String) : List (String × Nat) :=
  m.map (fun p => if p.1 = name then (p.1, p.2 + 1) else p)

/-- The bisection idiom test on a `while` loop's `ast.unparse` text:
a bound-variable name together with a halving operation. -/
def whileLogTest (src : String) : Bool :=
  let lowered := lowerStr src
  (["low", "high", "start", "end", "left", "right"].any
      (fun v => containsSub lowered v)) &&
    (containsSub lowered "// 2" || containsSub lowered ">> 1" ||
      containsSub lowered "/= 2")

mutual
/-- One step of `ComplexityVisitor` (`visit_FunctionDef` / `visit_Call` /
`visit_For` / `visit_While`, with `generic_visit` descending into children). -/
def visitNode (s : VisitState) : PyNode → VisitState
  | .functionDef name body =>
    let s1 := { s with currentFunc := some name,
                       selfCalls := setdefaultZero s.selfCalls name }
    let s2 := visitNodes s1 body
    { s2 with currentFunc := s.currentFunc }
  | .call fn args =>
    let s1 :=
      match fn, s.currentFunc with
      | some f, some cur =>
        if f = cur then { s with selfCalls := bumpCount s.selfCalls cur } else s
      | _, _ => s
    visitNodes s1 args
  | .forLoop body =>
    let s1 := { s with loopDepth := s.loopDepth + 1,
                       maxLoopDepth := max s.maxLoopDepth (s.loopDepth + 1) }
    let s2 := visitNodes s1 body
    { s2 with loopDepth := s2.loopDepth - 1 }
  | .whileLoop src body =>
    let s1 := { s with loopDepth := s.loopDepth + 1,
                       maxLoopDepth := max s.maxLoopDepth (s.loopDepth + 1),
                       hasLogLoop := s.hasLogLoop || whileLogTest src }
    let s2 := visitNodes s1 body
    { s2 with loopDepth := s2.loopDepth - 1 }
  | .comp children => visitNodes s children
  | .other children => visitNodes s children
/-- Visit a child list in order. -/
def visitNodes (s : VisitState) : PyNodes → VisitState
  | .nil => s
  | .cons n rest => visitNodes (visitNode s n) rest
end

/-- Run `ComplexityVisitor` over a parsed module. -/
def runVisitor (m : PyMod) : VisitState :=
  visitNodes ⟨0, 0, [], none, false⟩ m

/-- Embeds `max(self_calls_per_func.values(), default=0)`. -/
def maxSelfCalls (st : VisitState) : Nat :=
  (st.selfCalls.map (fun p => p.2)).foldr max 0

/-- The decision chain of `_estimate_big_o`'s Python branch. -/
def bigODecision (st : VisitState) : String :=
  if st.hasLogLoop then "O(log n)"
  else if 2 ≤ maxSelfCalls st then "O(2^n)"
  else if maxSelfCalls st = 1 then "O(n)"
  else if 2 ≤ st.maxLoopDepth then "O(n^2)"
  else if st.maxLoopDepth = 1 then "O(n)"
  else "O(1)"

/-- The `while`-condition phrases of the non-Python bisection special case. -/
def bisectLoopPhrases : List String :=
  ["while (low <=", "while (low >=", "while(low <=", "while(low >=",
   "while (start <=", "while(start <=", "while (begin <=", "while(begin <=",
   "while (left <=", "while(left <=", "while (left < right",
   "while(left < right",
   "while left <=", "while left >=", "while start <=", "while begin <="]

/-- One step of the non-Python fallback's loop-depth line scan. -/
def depthLineStep (acc : Nat × Nat) (line : String) : Nat × Nat :=
  let stripped := trimChars line
  let opened := strStartsWith stripped "for " || strStartsWith stripped "while "
  let cur1 := if opened then acc.2 + 1 else acc.2
  let max1 := if opened then max acc.1 cur1 else acc.1
  let closes := strEndsWith stripped ":" &&
    !(strStartsWith stripped "for " || strStartsWith stripped "while " ||
      strStartsWith stripped "if " || strStartsWith stripped "elif ")
  let cur2 := if closes then cur1 - 1 else cur1
  (max1, cur2)

/-- Embeds `_estimate_big_o` from `analysis_engine.py`. -/
def estimateBigO (parse : PyParseFn) (code : String) (language : Option String) :
    String :=
  let lang := lowerStr (language.getD "")
  if lang = "python" ∨ lang = "py" then
    match parse code with
    | .error _ => "O(1)"
    | .ok m => bigODecision (runVisitor m)
  else
    let lowered := lowerStr code
    let hasRangeVars := ["low", "high", "start", "end", "left", "right"].any
      (fun tok => containsSub lowered tok)
    let hasBisectLoop := bisectLoopPhrases.any (fun cond => containsSub lowered cond)
    let hasMidCalc := containsSub lowered "mid" &&
      (containsSub lowered "/ 2" || containsSub lowered ">> 1")
    if hasRangeVars && hasBisectLoop && hasMidCalc then "O(log n)"
    else
      let maxDepth := ((splitlines code).foldl depthLineStep (0, 0)).1
      if 2 ≤ maxDepth then "O(n^2)"
      else if maxDepth = 1 then "O(n)"
      else "O(1)"

/-- The mutable state of `SpaceVisitor` in `_estimate_space_complexity`. -/
structure SpaceState where
  selfCalls : List (String × Nat)
  currentFunc : Option String
  hasLinearAllocation : Bool
deriving DecidableEq, Repr

mutual
/-- One step of `SpaceVisitor` (self-recursion tracking plus the
comprehension flag). -/
def spaceVisitNode (s : SpaceState) : PyNode → SpaceState
  | .functionDef name body =>
    let s1 := { s with currentFunc := some name,
                       selfCalls := setdefaultZero s.selfCalls name }
    let s2 := spaceVisitNodes s1 body
    { s2 with currentFunc := s.currentFunc }
  | .call fn args =>
    let s1 :=
      match fn, s.currentFunc with
      | some f, some cur =>
        if f = cur then { s with selfCalls := bumpCount s.selfCalls cur } else s
      | _, _ => s
    spaceVisitNodes s1 args
  | .forLoop body => spaceVisitNodes s body
  | .whileLoop _ body => spaceVisitNodes s body
  | .comp children =>
    spaceVisitNodes { s with hasLinearAllocation := true } children
  | .other children => spaceVisitNodes s children
/-- Visit a child list in order. -/
def spaceVisitNodes (s : SpaceState) : PyNodes → SpaceState
  | .nil => s
  | .cons n rest => spaceVisitNodes (spaceVisitNode s n) rest
end

/-- Embeds `_estimate_space_complexity` from `analysis_engine.py`. -/
def estimateSpace (parse : PyParseFn) (code : String) (language : Option String) :
    String :=
  let lang := lowerStr (language.getD "")
  if lang = "python" ∨ lang = "py" then
    match parse code with
    | .error _ => "O(1)"
    | .ok m =>
      let st := spaceVisitNodes ⟨[], none, false⟩ m
      let maxCalls : Nat := (st.selfCalls.map (fun p => p.2)).foldr max 0
      if 1 ≤ maxCalls then "O(n)"
      else if st.hasLinearAllocation then "O(n)"
      else "O(1)"
  else "O(1)"

/-! ## Structural scoring, security scan, risk (`analysis_engine.py`,
`security.py`) -/

/-- The fixed keyword tuple of `_estimate_cyclomatic_complexity`. -/
def cyclomaticKeywords : List String :=
  ["if ", "elif ", "for ", "while ", "case ", " except ", " and ", " or "]

/-- Embeds `_estimate_cyclomatic_complexity`: `1 +` the keyword counts over the
lowercased code. -/
def estimateCyclomatic (code : String) : Nat :=
  let lowered := lowerStr code
  cyclomaticKeywords.foldl (fun acc kw => acc + countSub lowered kw) 1

/-- Embeds `_estimate_maintainability`:
`clamp(100 - 1.5*cyclomatic - 0.1*line_count, 0, 100)` with the line count
floored at 1. -/
def estimateMaintainability (cyclomatic : Nat) (code : String) : ℚ :=
  let lineCount : Nat := max (splitlines code).length 1
  let score : ℚ := mkRat (1000 - 15 * (cyclomatic : Int) - (lineCount : Int)) 10
  max 0 (min 100 score)

/-- A security `Issue` (`schemas.py`): `{type, message, severity}`. -/
structure Issue where
  type : String
  message : String
  severity : String
deriving DecidableEq, Repr

/-- The fixed suspicious-substring list of `analyze_security`. -/
def suspiciousPatterns : List String :=
  ["eval(", "exec(", "os.system(", "subprocess.call(", "password", "secret",
   "api_key"]

/-- Embeds `analyze_security` (`security.py`): one warning finding per matched
pattern, case-insensitively. -/
def securityFindings (code : String) : List Issue :=
  let lowered := lowerStr code
  (suspiciousPatterns.filter (fun pat => containsSub lowered pat)).map
    (fun pat => ⟨"security", "Suspicious pattern detected: " ++ pat, "warning"⟩)

/-- Embeds `_summarise_security`: fixed sentence when empty, else the sorted
distinct messages joined by commas. -/
def summariseSecurity (issues : List Issue) : String :=
  if issues.isEmpty then "No obvious security issues detected by simple rules."
  else
    "Potential security concerns: " ++
      String.intercalate ", " (sortStrings (issues.map (fun i => i.message)).eraseDups) ++
      "."

/-- Embeds `_compute_risk`: the additive score and its level banding. -/
def computeRisk (big_o : String) (cyclomatic : Nat) (issues : List Issue)
    (maintainability : ℚ) : Nat × String :=
  let s1 := if containsSub big_o "n^2" then 0 + 2 else 0
  let s2 := if 15 < cyclomatic then s1 + 2 else s1
  let s3 := if issues.isEmpty then s2 else s2 + 3
  let score := if maintainability < 50 then s3 + 2 else s3
  let level :=
    if score ≤ 2 then "Low"
    else if score ≤ 4 then "Medium"
    else if score ≤ 6 then "High"
    else "Critical"
  (score, level)

/-- Embeds `_estimate_complexity_trend`. -/
def estimateTrend (cyclomatic : Nat) : String :=
  if 15 ≤ cyclomatic then "increasing"
  else if 8 ≤ cyclomatic then "slightly_increasing"
  else "stable"

/-! ## The AI collaborator (`app/utils/ai_client.py`) -/

/-- The schema hint passed to `openai_json`
(`{algorithm, time_complexity, space_complexity, recommendation, explanation}`). -/
structure SchemaHint where
  algorithm : String
  time_complexity : String
  space_complexity : String
  recommendation : String
  explanation : String
deriving DecidableEq, Repr

/-- The JSON object returned by `openai_json`, reduced to the keys the
pipeline reads: the `_stubbed` / `_parse_error` markers and the five
refinement fields (`none` models a missing key). -/
structure JsonReply where
  stubbed : Bool
  parse_error : Bool
  algorithm : Option String
  time_complexity : Option String
  space_complexity : Option String
  recommendation : Option String
  explanation : Option String
deriving DecidableEq, Repr

/-- The AI collaborator: `chat(prompt)` (both call sites of the pipeline
pass `context=None`) and `openai_json(system_prompt, user_prompt,
json_schema_hint)`. -/
structure AIClient where
  chat : String → String
  openaiJson : String → String → SchemaHint → JsonReply

/-- Embeds `StubAIClient`: `chat` echoes the prompt (`context=None`, so the
context snippet is empty) and `openai_json` returns the schema hint
tagged `_stubbed`. -/
def stubClient : AIClient where
  chat := fun prompt => "(stubbed AI) You said: " ++ strTake prompt 200 ++ ". Context: "
  openaiJson := fun _ _ hint =>
    ⟨true, false, some hint.algorithm, some hint.time_complexity,
      some hint.space_complexity, some hint.recommendation, some hint.explanation⟩

/-! ## AI-touching pipeline steps (`analysis_engine.py`) -/

/-- A single-quote string, for reproducing Python's `repr` of the
preliminary-analysis dict inside the refinement prompt. -/
def sqStr : String := String.singleton singleQuoteChar

/-- Python's `repr` of `{"time_complexity": t, "space_complexity": s}` as
interpolated into the refinement prompt. -/
def prelimRepr (t s : String) : String :=
  "\x7b" ++ sqStr ++ "time_complexity" ++ sqStr ++ ": " ++ sqStr ++ t ++ sqStr ++ ", " ++
    sqStr ++ "space_complexity" ++ sqStr ++ ": " ++ sqStr ++ s ++ sqStr ++ "\x7d"

/-- The prompt of `_ai_suggestion_summary`. -/
def suggestionPrompt (code : String) : String :=
  "Summarise the main issues and possible improvements in the following code. " ++
    "Keep it to 2–3 sentences, plain text only.\n\n" ++ strTake code 4000

/-- Embeds `_ai_suggestion_summary`. -/
def aiSuggestionSummary (client : AIClient) (code : String) : String :=
  client.chat (suggestionPrompt code)

/-- The fix-request prompt of `attempt_auto_correction`. -/
def fixPrompt (lang code : String) : String :=
  "Fix syntax and runtime errors in the following " ++ lang ++ " code.\n" ++
    "Do NOT change business logic.\n" ++
    "Return ONLY corrected code.\n" ++
    "No explanation.\n" ++
    "No markdown.\n\n" ++ strTake code 6000

/-- Embeds `attempt_auto_correction`: ask the client for a fix; an empty reply or
the stub marker keeps the original code. -/
def attempt_auto_correction (client : AIClient) (language code : String) : String :=
  let lang := pyOrStr language "code"
  let reply := client.chat (fixPrompt lang code)
  let lowered := lowerStr reply
  if containsSub lowered "stubbed ai" || trimChars reply = "" then code
  else trimChars reply

/-- The language-detection prompt of `_detect_language_via_ai`. -/
def detectPrompt (code : String) : String :=
  "Detect the programming language of the following code.\n" ++
    "Return ONLY the language name.\n" ++
    "No explanation.\n\n" ++ strTake code 6000

/-- The alias table of `_detect_language_via_ai`. -/
def languageAliases : List (String × String) :=
  [("python", "python"), ("py", "python"), ("javascript", "javascript"),
   ("js", "javascript"), ("typescript", "typescript"), ("ts", "typescript"),
   ("java", "java"), ("c++", "cpp"), ("cpp", "cpp"), ("c", "c")]

/-- Embeds `_detect_language_via_ai`: normalise the client's one-word answer, or
fall back to the heuristic detection. -/
def detectLanguageViaAI (client : AIClient) (code fallbackLanguage : String)
    (fallbackConfidence : ℚ) : String × ℚ :=
  let reply := client.chat (detectPrompt code)
  let lowered := trimChars (lowerStr reply)
  if containsSub lowered "stubbed ai" || lowered = "" then
    (pyOrStr fallbackLanguage "generic", fallbackConfidence)
  else
    match languageAliases.lookup (firstToken lowered) with
    | none => ("generic", 0)
    | some lang => (lang, mkRat 9 10)

/-- The refinement overlay built by `_refine_python_complexity_with_gemini`. -/
structure Refined where
  algorithm : String
  time_complexity : String
  space_complexity : String
  recommendation : String
  explanation : String
deriving DecidableEq, Repr

/-- The user prompt of `_refine_python_complexity_with_gemini`. -/
def refineUserPrompt (prelimTime prelimSpace code : String) : String :=
  "Input 1: User-submitted Python code.\n" ++
    "Input 2: Rule-based analysis JSON from AST estimator:\n" ++
    prelimRepr prelimTime prelimSpace ++ "\n\n" ++
    "Task:\n" ++
    "- Recognize algorithm type (e.g., Binary Search, Merge Sort, DFS, BFS, DP, or custom).\n" ++
    "- Correct rule-based time and space complexity estimates.\n" ++
    "- Suggest optimizations (iterative vs recursive, memoization, loop improvements).\n" ++
    "- Provide explanation in human-readable language.\n\n" ++
    "Output Requirements:\n" ++
    "Return strict JSON only with fields:\n" ++
    "\x7b \"algorithm\": \"...\", \"time_complexity\": \"O(...)\", \"space_complexity\": \"O(...)\", " ++
    "\"recommendation\": \"...\", \"explanation\": \"...\" \x7d\n" ++
    "Truncate explanation to 300 characters if too long.\n" ++
    "Do not include any extra text or commentary.\n\n" ++
    "CODE:\n" ++ strTake code 6000

/-- Embeds `_refine_python_complexity_with_gemini`: discard stubbed/unparsable
replies, otherwise default the fields from the schema hint and truncate the
explanation to 300 characters. -/
def refinePython (client : AIClient) (code prelimTime prelimSpace : String) :
    Option Refined :=
  let hint : SchemaHint := ⟨"Unknown", prelimTime, prelimSpace, "", ""⟩
  let r := client.openaiJson "You are a Python code analysis assistant."
    (refineUserPrompt prelimTime prelimSpace code) hint
  if r.stubbed || r.parse_error then none
  else
    let explanation := pyOrOpt r.explanation ""
    some ⟨pyOrOpt r.algorithm "Unknown",
      pyOrOpt r.time_complexity hint.time_complexity,
      pyOrOpt r.space_complexity hint.space_complexity,
      pyOrOpt r.recommendation "",
      if 300 < explanation.length then strTake explanation 300 else explanation⟩

/-! ## `analyze_code` (`analysis_engine.py`) -/

/-- The unified analysis payload (`UnifiedAnalysisResponse` keys produced
by `analyze_code` / `_syntax_error_response`; `none` models a key that the
error payload leaves out). -/
structure AnalysisResult where
  big_o : String
  cyclomatic_complexity : Nat
  maintainability : ℚ
  security_summary : String
  ai_summary : String
  risk_score : Nat
  risk_level : String
  complexity_trend : String
  language_detected : Option String
  detection_confidence : ℚ
  was_corrected : Bool
  original_valid : Bool
  corrected_code : Option String
  algorithm : Option String
  time_complexity : Option String
  space_complexity : Option String
  recommendation : Option String
  explanation : Option String
  error : Option String
  message : Option String
deriving DecidableEq, Repr

/-- Embeds `_syntax_error_response`: the standardised error payload with neutral
metrics. -/
def syntaxErrorResponse (language_detected : Option String)
    (detection_confidence : ℚ) (was_corrected original_valid : Bool)
    (corrected_code : Option String) (message : String) : AnalysisResult where
  big_o := "N/A"
  cyclomatic_complexity := 0
  maintainability := 0
  security_summary := ""
  ai_summary := ""
  risk_score := 0
  risk_level := "Unknown"
  complexity_trend := "unknown"
  language_detected := language_detected
  detection_confidence := detection_confidence
  was_corrected := was_corrected
  original_valid := original_valid
  corrected_code := corrected_code
  algorithm := none
  time_complexity := none
  space_complexity := none
  recommendation := none
  explanation := none
  error := some "SyntaxError"
  message := some message

/-- Steps 1 of `analyze_code`: the resolved effective language and
detection confidence (override > heuristic detection > `#include`
self-heal > low-confidence AI escalation). -/
def resolveLanguage (client : AIClient) (code : String)
    (language : Option String) : String × ℚ :=
  let override := lowerStr (trimChars (language.getD ""))
  let det := detect_language code
  let detected := lowerStr (pyOrStr det.language "generic")
  let eff0 := pyOrStr (pyOrStr override detected) "generic"
  let eff1 := if eff0 = "python" && containsSub code "#include" then "c" else eff0
  if override = "" ∧ det.confidence < mkRat 1 2 then
    detectLanguageViaAI client code detected det.confidence
  else (eff1, det.confidence)

/-- Step 5+ of `analyze_code`: the metric computations run on the final
(possibly corrected) code once it is considered valid. -/
def analyzeValidPath (client : AIClient) (parse : PyParseFn) (eff : String)
    (conf : ℚ) (finalCode : String) (wasCorrected originalValid : Bool) :
    AnalysisResult :=
  let secIssues := securityFindings finalCode
  let bigO0 := estimateBigO parse finalCode (some eff)
  let space0 := estimateSpace parse finalCode (some eff)
  let cyclo := estimateCyclomatic finalCode
  let maint := estimateMaintainability cyclo finalCode
  let refined := if eff = "python" ∨ eff = "py" then
      refinePython client finalCode bigO0 space0
    else none
  let bigO := match refined with
    | some r => pyOrStr r.time_complexity bigO0
    | none => bigO0
  let risk := computeRisk bigO cyclo secIssues maint
  { big_o := bigO
    cyclomatic_complexity := cyclo
    maintainability := maint
    security_summary := summariseSecurity secIssues
    ai_summary := aiSuggestionSummary client finalCode
    risk_score := risk.1
    risk_level := risk.2
    complexity_trend := estimateTrend cyclo
    language_detected := some eff
    detection_confidence := conf
    was_corrected := wasCorrected
    original_valid := originalValid
    corrected_code := if wasCorrected then some finalCode else none
    algorithm := refined.map (fun r => r.algorithm)
    time_complexity := some (match refined with
      | some r => r.time_complexity
      | none => bigO)
    space_complexity := some (match refined with
      | some r => r.space_complexity
      | none => space0)
    recommendation := refined.map (fun r => r.recommendation)
    explanation := refined.map (fun r => r.explanation)
    error := none
    message := none }

/-- Embeds `analyze_code`: language resolution, validation, the single
auto-correction retry, then either the metric computations or the
standardised `SyntaxError` payload. -/
def analyzeCode (client : AIClient) (parse : PyParseFn) (code : String)
    (language : Option String) : AnalysisResult :=
  let rl := resolveLanguage client code language
  let validation := validate_code parse rl.1 code
  if validation.valid then analyzeValidPath client parse rl.1 rl.2 code false true
  else
    let corrected := attempt_auto_correction client rl.1 code
    let revalidation := validate_code parse rl.1 corrected
    if revalidation.valid then
      analyzeValidPath client parse rl.1 rl.2 corrected true false
    else
      syntaxErrorResponse (some rl.1) rl.2 false false none
        (pyOrOpt validation.error "Code is invalid even after correction.")

/-! ## `app/services/compare.py` -/

/-- Embeds `CodeDiff` (`schemas.py`): added / removed / changed line lists. -/
structure CodeDiff where
  added : List String
  removed : List String
  changed : List String
deriving DecidableEq, Repr

/-- Embeds `CodeCompareResponse` as populated by `compare_versions`. -/
structure CodeCompareResponse where
  diff : CodeDiff
  risk_score : ℚ
  summary : String
deriving DecidableEq, Repr

/-- Embeds `compare_versions`: the raw line-based diff. -/
def compare_versions (originalCode modifiedCode : String) : CodeCompareResponse :=
  let originalLines := splitlines originalCode
  let modifiedLines := splitlines modifiedCode
  let added := modifiedLines.filter (fun line => !(originalLines.contains line))
  let removed := originalLines.filter (fun line => !(modifiedLines.contains line))
  let changed : List String := []
  { diff := ⟨added, removed, changed⟩
    risk_score := ((added.length + removed.length : Nat) : ℚ)
    summary := "Basic diff calculated. Replace with smarter analysis as needed." }

/-- Embeds `_big_o_rank`: substring-based ranking of a Big-O label (lower is
better). -/
def bigORank (big_o : String) : Nat :=
  let s := lowerStr (pyOrStr big_o "")
  if containsSub s "n^2" then 3
  else if containsSub s "n)" || containsSub s "o(n" then 2
  else if containsSub s "1" then 1
  else 4

/-- Embeds `_pick_better`: risk score, then cyclomatic complexity, then Big-O
rank; ties fall through and the final tie returns `"A"`. -/
def pickBetter (aRisk bRisk aCyclomatic bCyclomatic : Int)
    (aRank bRank : Nat) : String :=
  if aRisk ≠ bRisk then (if aRisk < bRisk then "A" else "B")
  else if aCyclomatic ≠ bCyclomatic then
    (if aCyclomatic < bCyclomatic then "A" else "B")
  else if aRank ≠ bRank then (if aRank < bRank then "A" else "B")
  else "A"

/-- Embeds `_notes_for_metric`. -/
def notesForMetric (name aVal bVal better : String) : List String :=
  if aVal = bVal then [name ++ ": no change (" ++ aVal ++ ")."]
  else [name ++ ": " ++ aVal ++ " → " ++ bVal ++ " (better: " ++ better ++ ")."]

/-- Embeds `_notes_for_delta` with `lower_is_better=True` (the only way it is
called). -/
def notesForDelta (name : String) (aVal bVal : Int) (better : String) :
    List String :=
  if aVal = bVal then [name ++ ": no change (" ++ toString aVal ++ ")."]
  else
    let direction := if bVal < aVal then "decreased" else "increased"
    let desirability := if bVal < aVal then "good" else "worse"
    [name ++ ": " ++ toString aVal ++ " → " ++ toString bVal ++ " (" ++
      direction ++ ", " ++ desirability ++ "; better: " ++ better ++ ")."]

/-- One side of the `metrics_comparison` table of `compare_codes`. -/
structure SideMetrics where
  big_o : String
  cyclomatic_complexity : Int
  maintainability : ℚ
  risk_score : Int
  risk_level : String
deriving DecidableEq, Repr

/-- The `metrics_comparison` table (sides A/B and the delta row). -/
structure MetricsComparison where
  A : SideMetrics
  B : SideMetrics
  delta_cyclomatic : Int
  delta_risk : Int
deriving DecidableEq, Repr

/-- The value returned by `compare_codes`: either the comparison-level
error payload (`{"error": "CompilationError", "message": ...}`) or the
full verdict record. -/
inductive CompareOutcome where
  | err : String → CompareOutcome
  | ok : String → List String → MetricsComparison → CompareOutcome
deriving DecidableEq, Repr

/-- The `better_version` field of a comparison outcome, when present. -/
def CompareOutcome.better? : CompareOutcome → Option String
  | .err _ => none
  | .ok v _ _ => some v

/-- Whether `compare_codes` returned its error payload. -/
def CompareOutcome.isErr : CompareOutcome → Bool
  | .err _ => true
  | .ok _ _ _ => false

/-- Embeds `compare_codes`: analyze both sides, short-circuit when a side reports
`error == "CompilationError"`, otherwise compute the verdict, the notes
and the metrics table. -/
def compareCodes (client : AIClient) (parse : PyParseFn) (codeA codeB : String)
    (language : Option String) : CompareOutcome :=
  let a := analyzeCode client parse codeA language
  let b := analyzeCode client parse codeB language
  if a.error = some "CompilationError" ∨ b.error = some "CompilationError" then
    let which := (if a.error = some "CompilationError" then ["A"] else []) ++
      (if b.error = some "CompilationError" then ["B"] else [])
    .err ("Code is invalid even after correction for versions: " ++
      String.intercalate ", " which ++ ".")
  else
    let aRank := bigORank a.big_o
    let bRank := bigORank b.big_o
    let aCyclomatic : Int := a.cyclomatic_complexity
    let bCyclomatic : Int := b.cyclomatic_complexity
    let aRisk : Int := a.risk_score
    let bRisk : Int := b.risk_score
    let better := pickBetter aRisk bRisk aCyclomatic bCyclomatic aRank bRank
    let notes := notesForMetric "Big‑O" a.big_o b.big_o better ++
      notesForDelta "Cyclomatic complexity" aCyclomatic bCyclomatic better ++
      notesForDelta "Risk score" aRisk bRisk better
    .ok better notes
      { A := ⟨a.big_o, aCyclomatic, a.maintainability, aRisk, a.risk_level⟩
        B := ⟨b.big_o, bCyclomatic, b.maintainability, bRisk, b.risk_level⟩
        delta_cyclomatic := bCyclomatic - aCyclomatic
        delta_risk := bRisk - aRisk }

/-! ## Concrete instances of the external oracles, used by the concrete
runs below -/

/-- A parse oracle for runs whose effective language is not Python: the
pipeline never consults it there, so its value is irrelevant. -/
def pyParseFail : PyParseFn := fun _ => Except.error "unused parse oracle"

/-- An AI client whose `chat` returns a lone double-quote character: a
syntactically relevant "correction" that turns an unbalanced-bracket
snippet into an unbalanced-quote snippet. -/
def cexClient : AIClient where
  chat := fun _ => "\""
  openaiJson := fun _ _ hint =>
    ⟨true, false, some hint.algorithm, some hint.time_complexity,
      some hint.space_complexity, some hint.recommendation, some hint.explanation⟩

/-- JavaScript snippet whose text matches the bisection idiom
(`low`/`high` bound variables, a `while (low <=` loop and a `mid`-with-
halving computation), so its time complexity estimate is `O(log n)`. -/
def jsA : String :=
  "var low = 0;\nvar high = n;\nwhile (low <= high) \x7b var mid = (low + high) / 2; low = mid + 1; \x7d"

/-- JavaScript snippet with one plain `while` loop: time complexity
estimate `O(n)`, and the same cyclomatic complexity and risk score as
`jsA`. -/
def jsB : String :=
  "var i = 0;\nwhile (i < n) \x7b i = i + 1; \x7d\nvar j = 1;"

/-- A Python module with one directly self-recursive function containing a
single self-call inside one loop of depth 1:
`def f(n): for i in range(n): f(n - 1)`. -/
def astRec : PyMod :=
  PyNodes.cons
    (PyNode.functionDef "f"
      (PyNodes.cons
        (PyNode.forLoop
          (PyNodes.cons (PyNode.call (some "range") PyNodes.nil)
            (PyNodes.cons (PyNode.call (some "f") PyNodes.nil) PyNodes.nil)))
        PyNodes.nil))
    PyNodes.nil

/-- Source text corresponding to `astRec`. -/
def codeRec : String := "def f(n):\n    for i in range(n):\n        f(n - 1)"

/-- Parse oracle mapping source text to the module `astRec`. -/
def pyParseRec : PyParseFn := fun _ => Except.ok astRec

/-! ## Spec-side definitions (stated from the specification's words, to be
compared with the source-derived behaviour) -/

/-- The triple of metrics `compare_codes` feeds into the verdict:
risk score, cyclomatic complexity (both as the ints the comparison uses)
and the Big-O rank. -/
def metricTriple (r : AnalysisResult) : Int × Int × Nat :=
  ((r.risk_score : Int), (r.cyclomatic_complexity : Int), bigORank r.big_o)

/-- The verdict chain as the (amended) specification states it: strictly
lower risk score wins, then strictly lower cyclomatic complexity, then
strictly lower Big-O rank, and a full tie goes to `"A"`. -/
def specVerdict (a b : AnalysisResult) : String :=
  if (a.risk_score : Int) < (b.risk_score : Int) then "A"
  else if (b.risk_score : Int) < (a.risk_score : Int) then "B"
  else if (a.cyclomatic_complexity : Int) < (b.cyclomatic_complexity : Int) then "A"
  else if (b.cyclomatic_complexity : Int) < (a.cyclomatic_complexity : Int) then "B"
  else if bigORank a.big_o < bigORank b.big_o then "A"
  else if bigORank b.big_o < bigORank a.big_o then "B"
  else "A"

/-! ## Theorems -/

/-- C10: on the metric-computation path the maintainability value is at
most 98.4: cyclomatic complexity starts at base 1 and the line count is
floored at 1 before the clamp, so the documented upper end 100 of the
range is unattainable. -/
theorem maintainability_upper_bound (code : String) :
    estimateMaintainability (estimateCyclomatic code) code ≤ 984 / 10 := by
  have hc : 1 ≤ estimateCyclomatic code := by
    simp only [estimateCyclomatic, cyclomaticKeywords, List.foldl]
    omega
  simp only [estimateMaintainability]
  set c := estimateCyclomatic code with hcdef
  set L := max (splitlines code).length 1 with hLdef
  have hL : 1 ≤ L := Nat.le_max_right _ 1
  have hscore : mkRat (1000 - 15 * (c : Int) - (L : Int)) 10 ≤ (984 : ℚ) / 10 := by
    rw [Rat.mkRat_eq_div]
    have hc' : (1 : ℚ) ≤ (c : ℚ) := by exact_mod_cast hc
    have hL' : (1 : ℚ) ≤ (L : ℚ) := by exact_mod_cast hL
    push_cast
    linarith
  exact max_le (by norm_num) (le_trans (min_le_right _ _) hscore)

/-- C6 (counterexample): the risk score 6 is attainable (an `n^2` label,
cyclomatic complexity 16, no security findings, maintainability 40), so
the claimed score set `{0,2,3,4,5,7,9}` is wrong; its level is `High`. -/
theorem computeRisk_score_six :
    (computeRisk "O(n^2)" 16 [] 40).1 = 6 ∧
    (computeRisk "O(n^2)" 16 [] 40).1 ∉ ([0, 2, 3, 4, 5, 7, 9] : List ℕ) ∧
    (computeRisk "O(n^2)" 16 [] 40).2 = "High" := by decide

/-- C6 (amended): the risk score is the sum of 2 for an `n^2` label, 2 for
cyclomatic complexity above 15, 3 for a non-empty finding list and 2 for
maintainability below 50 — so it always lies in `{0,2,3,4,5,6,7,9}` — and
the level banding is 0–2 Low, 3–4 Medium, 5–6 High, ≥7 Critical. -/
theorem computeRisk_formula_amended (big_o : String) (cyclo : Nat)
    (issues : List Issue) (maint : ℚ) :
    (computeRisk big_o cyclo issues maint).1 =
      ((if containsSub big_o "n^2" then 2 else 0) +
        (if 15 < cyclo then 2 else 0) + (if issues.isEmpty then 0 else 3) +
        (if maint < 50 then 2 else 0)) ∧
    (computeRisk big_o cyclo issues maint).1 ∈ ([0, 2, 3, 4, 5, 6, 7, 9] : List ℕ) ∧
    (computeRisk big_o cyclo issues maint).2 =
      (if (computeRisk big_o cyclo issues maint).1 ≤ 2 then "Low"
       else if (computeRisk big_o cyclo issues maint).1 ≤ 4 then "Medium"
       else if (computeRisk big_o cyclo issues maint).1 ≤ 6 then "High"
       else "Critical") := by
  unfold computeRisk
  by_cases h1 : containsSub big_o "n^2" = true <;>
    by_cases h2 : 15 < cyclo <;>
      by_cases h3 : issues.isEmpty = true <;>
        by_cases h4 : maint < 50 <;>
          simp [h1, h2, h3, h4]

/-- C9: the raw line-based diff marks as added exactly the lines of the
modified version absent from the original, as removed exactly the lines of
the original absent from the modified version, and never marks changed
lines. -/
theorem compare_versions_diff_characterisation (origCode modCode : String) :
    (compare_versions origCode modCode).diff.changed = [] ∧
    (∀ l, l ∈ (compare_versions origCode modCode).diff.added ↔
        l ∈ splitlines modCode ∧ l ∉ splitlines origCode) ∧
    (∀ l, l ∈ (compare_versions origCode modCode).diff.removed ↔
        l ∈ splitlines origCode ∧ l ∉ splitlines modCode) := by
  refine ⟨rfl, ?_, ?_⟩ <;> intro l <;>
    simp [compare_versions, List.mem_filter]

/-- C1: the comparison does not short-circuit when a side fails
validation after correction. `"("` (JavaScript, stub client) terminates in
the invalid-after-correction outcome (`error = "SyntaxError"`), yet
`compare_codes` — which only checks for `error == "CompilationError"` —
returns a full verdict record with metrics instead of an error naming side
A; the failed side's neutral zero metrics even make it win the verdict. -/
theorem compareCodes_no_error_despite_syntax_error :
    (analyzeCode stubClient pyParseFail "(" (some "javascript")).error =
      some "SyntaxError" ∧
    (analyzeCode stubClient pyParseFail "x = 1;" (some "javascript")).error =
      none ∧
    (compareCodes stubClient pyParseFail "(" "x = 1;" (some "javascript")).isErr =
      false ∧
    (compareCodes stubClient pyParseFail "(" "x = 1;" (some "javascript")).better? =
      some "A" := by
  decide

set_option maxRecDepth 100000

/-- C7: the syntax validator applies its rules in order: empty or
whitespace-only code is invalid ("Empty code"); the `generic` or
empty/unresolved language tag is always valid; Python delegates to the
full parse and surfaces its failure message verbatim; every other language
is checked structurally — unbalanced brackets, then odd quote counts, then
the semicolon heuristic for the fixed semicolon-terminated set on ≥ 3
non-blank lines with no semicolon at all — and is otherwise valid. -/
theorem validate_code_rule_order (parse : PyParseFn) (language code : String) :
    (trimChars code = "" →
      validate_code parse language code = ⟨false, some "Empty code"⟩) ∧
    (trimChars code ≠ "" →
      (lowerStr (trimChars language) = "generic" ∨
        lowerStr (trimChars language) = "") →
      validate_code parse language code = ⟨true, none⟩) ∧
    (trimChars code ≠ "" →
      (lowerStr (trimChars language) = "py" ∨
        lowerStr (trimChars language) = "python") →
      (∀ e, parse code = Except.error e →
        validate_code parse language code = ⟨false, some e⟩) ∧
      (∀ m, parse code = Except.ok m →
        validate_code parse language code = ⟨true, none⟩)) ∧
    (trimChars code ≠ "" →
      lowerStr (trimChars language) ∉
        (["generic", "", "py", "python"] : List String) →
      (balancedBrackets code = false →
        validate_code parse language code =
          ⟨false, some "Unbalanced brackets/braces"⟩) ∧
      (balancedBrackets code = true → balancedQuotes code = false →
        validate_code parse language code = ⟨false, some "Unbalanced quotes"⟩) ∧
      (balancedBrackets code = true → balancedQuotes code = true →
        ((3 ≤ (nonBlankLines code).length ∧ containsSub code ";" = false ∧
            lowerStr (trimChars language) ∈ semicolonLangs) →
          validate_code parse language code =
            ⟨false, some "No semicolons found in multi-line code"⟩) ∧
        (¬(3 ≤ (nonBlankLines code).length ∧ containsSub code ";" = false ∧
            lowerStr (trimChars language) ∈ semicolonLangs) →
          validate_code parse language code = ⟨true, none⟩))) := by
  refine ⟨?_, ?_, ?_, ?_⟩
  · intro h
    simp [validate_code, h]
  · intro hne hlang
    rcases hlang with h | h <;> simp [validate_code, hne, h]
  · intro hne hlang
    constructor
    · intro e he
      rcases hlang with h | h <;> simp [validate_code, hne, h, he]
    · intro m hm
      rcases hlang with h | h <;> simp [validate_code, hne, h, hm]
  · intro hne hnot
    simp only [List.mem_cons, List.mem_singleton, not_or] at hnot
    obtain ⟨hg, he, hpy, hpython⟩ := hnot
    refine ⟨?_, ?_, ?_⟩
    · intro hb
      simp [validate_code, hne, hg, he, hpy, hpython, hb]
    · intro hb hq
      simp [validate_code, hne, hg, he, hpy, hpython, hb, hq]
    · intro hb hq
      constructor
      · intro hsemi
        simp [validate_code, hne, hg, he, hpy, hpython, hb, hq, hsemi]
      · intro hsemi
        simp [validate_code, hne, hg, he, hpy, hpython, hb, hq, hsemi]

/-- C7 (witness): a three-line JavaScript snippet with balanced brackets
and quotes but no semicolons is rejected by the semicolon heuristic. -/
theorem validate_code_rule_order_witness :
    validate_code pyParseFail "javascript" "a\nb\nc" =
      ⟨false, some "No semicolons found in multi-line code"⟩ :=
  ((((validate_code_rule_order pyParseFail "javascript" "a\nb\nc").2.2.2
    (by decide) (by decide)).2.2 (by decide) (by decide)).1 (by decide))

/-- C5: on the Python (grammar-aware) path, the time-complexity estimate
follows the first-match-wins decision order over the AST summary: log-loop
flag → `O(log n)`; a function with ≥ 2 direct self-calls → `O(2^n)`;
maximum self-call count exactly 1 → `O(n)`; else loop nesting depth ≥ 2 →
`O(n^2)`; depth exactly 1 → `O(n)`; else `O(1)`; and unparsable input
yields `O(1)` instead of an error. -/
theorem estimateBigO_decision_order (parse : PyParseFn) (code lang : String)
    (hlang : lang = "python" ∨ lang = "py") :
    (∀ e, parse code = Except.error e →
      estimateBigO parse code (some lang) = "O(1)") ∧
    (∀ m, parse code = Except.ok m →
      ((runVisitor m).hasLogLoop = true →
        estimateBigO parse code (some lang) = "O(log n)") ∧
      ((runVisitor m).hasLogLoop = false → 2 ≤ maxSelfCalls (runVisitor m) →
        estimateBigO parse code (some lang) = "O(2^n)") ∧
      ((runVisitor m).hasLogLoop = false → maxSelfCalls (runVisitor m) = 1 →
        estimateBigO parse code (some lang) = "O(n)") ∧
      ((runVisitor m).hasLogLoop = false → maxSelfCalls (runVisitor m) = 0 →
        2 ≤ (runVisitor m).maxLoopDepth →
        estimateBigO parse code (some lang) = "O(n^2)") ∧
      ((runVisitor m).hasLogLoop = false → maxSelfCalls (runVisitor m) = 0 →
        (runVisitor m).maxLoopDepth = 1 →
        estimateBigO parse code (some lang) = "O(n)") ∧
      ((runVisitor m).hasLogLoop = false → maxSelfCalls (runVisitor m) = 0 →
        (runVisitor m).maxLoopDepth = 0 →
        estimateBigO parse code (some lang) = "O(1)")) := by
  have h1 : lowerStr "python" = "python" := by decide
  have h2 : lowerStr "py" = "py" := by decide
  constructor
  · intro e he
    rcases hlang with h | h <;> subst h <;> simp [estimateBigO, h1, h2, he]
  · intro m hm
    refine ⟨?_, ?_, ?_, ?_, ?_, ?_⟩ <;>
      rcases hlang with h | h <;> subst h <;>
        intros <;> simp_all [estimateBigO, bigODecision, h1, h2, hm]

/-- C5 (witness): the module `astRec` — a directly self-recursive function
with exactly one self-call plus one loop of depth 1 — is estimated `O(n)`
(the recursion rule fires before the loop-depth rule). -/
theorem estimateBigO_decision_order_witness :
    maxSelfCalls (runVisitor astRec) = 1 ∧
    (runVisitor astRec).hasLogLoop = false ∧
    (runVisitor astRec).maxLoopDepth = 1 ∧
    estimateBigO pyParseRec codeRec (some "python") = "O(n)" :=
  ⟨by decide, by decide, by decide,
    ((estimateBigO_decision_order pyParseRec codeRec "python"
      (Or.inl rfl)).2 astRec rfl).2.2.1 (by decide) (by decide)⟩

/-- C2 (amended): whenever the pipeline terminates in the
invalid-after-correction outcome, the error result has kind `SyntaxError`
and its message is the error message of the *first* validation (the one
over the original code), with the generic fallback when that message is
empty or missing. -/
theorem analyze_message_is_first_validation_error (client : AIClient)
    (parse : PyParseFn) (code : String) (language : Option String)
    (h1 : (validate_code parse (resolveLanguage client code language).1
      code).valid = false)
    (h2 : (validate_code parse (resolveLanguage client code language).1
      (attempt_auto_correction client (resolveLanguage client code language).1
        code)).valid = false) :
    (analyzeCode client parse code language).error = some "SyntaxError" ∧
    (analyzeCode client parse code language).message =
      some (pyOrOpt
        (validate_code parse (resolveLanguage client code language).1 code).error
        "Code is invalid even after correction.") := by
  constructor <;> simp [analyzeCode, h1, h2, syntaxErrorResponse]

/-- C2 (witness): for `"("` under the JavaScript tag with a client whose
correction is a lone double quote, the error message is the first
validation's "Unbalanced brackets/braces". -/
theorem analyze_message_is_first_validation_error_witness :
    (analyzeCode cexClient pyParseFail "(" (some "javascript")).error =
      some "SyntaxError" ∧
    (analyzeCode cexClient pyParseFail "(" (some "javascript")).message =
      some (pyOrOpt
        (validate_code pyParseFail
          (resolveLanguage cexClient "(" (some "javascript")).1 "(").error
        "Code is invalid even after correction.") :=
  analyze_message_is_first_validation_error cexClient pyParseFail "("
    (some "javascript") (by decide) (by decide)

/-- C2 (counterexample): the claim that the message comes from the
*second* validation fails: the original `"("` fails with "Unbalanced
brackets/braces", the corrected code (a lone double quote) fails with
"Unbalanced quotes", and the pipeline reports the former, not the
latter. -/
theorem analyze_message_not_second_validation_error :
    (analyzeCode cexClient pyParseFail "(" (some "javascript")).error =
      some "SyntaxError" ∧
    (analyzeCode cexClient pyParseFail "(" (some "javascript")).message =
      some "Unbalanced brackets/braces" ∧
    (validate_code pyParseFail "javascript"
      (attempt_auto_correction cexClient "javascript" "(")).error =
      some "Unbalanced quotes" ∧
    (analyzeCode cexClient pyParseFail "(" (some "javascript")).message ≠
      some "Unbalanced quotes" := by
  decide

/-- C8: when the code is still judged invalid after the single correction
retry, the returned value is the clearly-tagged error result with neutral
metrics: kind `SyntaxError`, `big_o = "N/A"`, cyclomatic complexity 0,
maintainability 0, risk score 0, and no complexity/security/risk output
(empty summaries, `Unknown` risk level). -/
theorem analyze_invalid_yields_neutral_error (client : AIClient)
    (parse : PyParseFn) (code : String) (language : Option String)
    (h1 : (validate_code parse (resolveLanguage client code language).1
      code).valid = false)
    (h2 : (validate_code parse (resolveLanguage client code language).1
      (attempt_auto_correction client (resolveLanguage client code language).1
        code)).valid = false) :
    (analyzeCode client parse code language).error = some "SyntaxError" ∧
    (analyzeCode client parse code language).big_o = "N/A" ∧
    (analyzeCode client parse code language).cyclomatic_complexity = 0 ∧
    (analyzeCode client parse code language).maintainability = 0 ∧
    (analyzeCode client parse code language).risk_score = 0 ∧
    (analyzeCode client parse code language).risk_level = "Unknown" ∧
    (analyzeCode client parse code language).security_summary = "" ∧
    (analyzeCode client parse code language).ai_summary = "" := by
  refine ⟨?_, ?_, ?_, ?_, ?_, ?_, ?_, ?_⟩ <;>
    simp [analyzeCode, h1, h2, syntaxErrorResponse]

/-- C8 (witness): the empty-string input (stub client, no override) is
judged invalid after the correction loop and yields exactly the neutral
error result. -/
theorem analyze_invalid_yields_neutral_error_witness :
    (analyzeCode stubClient pyParseFail "" none).error = some "SyntaxError" ∧
    (analyzeCode stubClient pyParseFail "" none).big_o = "N/A" ∧
    (analyzeCode stubClient pyParseFail "" none).cyclomatic_complexity = 0 ∧
    (analyzeCode stubClient pyParseFail "" none).maintainability = 0 ∧
    (analyzeCode stubClient pyParseFail "" none).risk_score = 0 ∧
    (analyzeCode stubClient pyParseFail "" none).risk_level = "Unknown" ∧
    (analyzeCode stubClient pyParseFail "" none).security_summary = "" ∧
    (analyzeCode stubClient pyParseFail "" none).ai_summary = "" :=
  analyze_invalid_yields_neutral_error stubClient pyParseFail "" none
    (by decide) (by decide)

/-- Helper: swapping the argument sides of `_pick_better` flips the
verdict, provided the metric triples differ. -/
theorem pickBetter_swap (aR bR aC bC : Int) (aK bK : Nat)
    (h : ¬(aR = bR ∧ aC = bC ∧ aK = bK)) :
    pickBetter bR aR bC aC bK aK =
      (if pickBetter aR bR aC bC aK bK = "A" then "B" else "A") := by
  unfold pickBetter
  by_cases hR : aR = bR
  · subst hR
    by_cases hC : aC = bC
    · subst hC
      by_cases hK : aK = bK
      · exact absurd ⟨rfl, rfl, hK⟩ h
      · rcases lt_or_gt_of_ne hK with hlt | hgt
        · simp [hK, Ne.symm hK, hlt, lt_asymm hlt]
        · simp [hK, Ne.symm hK, hgt, lt_asymm hgt]
    · rcases lt_or_gt_of_ne hC with hlt | hgt
      · simp [hC, Ne.symm hC, hlt, lt_asymm hlt]
      · simp [hC, Ne.symm hC, hgt, lt_asymm hgt]
  · rcases lt_or_gt_of_ne hR with hlt | hgt
    · simp [hR, Ne.symm hR, hlt, lt_asymm hlt]
    · simp [hR, Ne.symm hR, hgt, lt_asymm hgt]

/-- Helper: `_pick_better` returns `"A"` on a full metric tie. -/
theorem pickBetter_tie (r c : Int) (k : Nat) : pickBetter r r c c k k = "A" := by
  simp [pickBetter]

/-- Helper: when neither side carries the comparison-level error kind,
`compare_codes` returns the full verdict record, with the verdict computed
by `_pick_better` and the delta rows `B − A`. -/
theorem compareCodes_ok_shape (client : AIClient) (parse : PyParseFn)
    (codeA codeB : String) (language : Option String)
    (hA : (analyzeCode client parse codeA language).error ≠ some "CompilationError")
    (hB : (analyzeCode client parse codeB language).error ≠ some "CompilationError") :
    ∃ n, compareCodes client parse codeA codeB language =
      CompareOutcome.ok
        (pickBetter
          ((analyzeCode client parse codeA language).risk_score : Int)
          ((analyzeCode client parse codeB language).risk_score : Int)
          ((analyzeCode client parse codeA language).cyclomatic_complexity : Int)
          ((analyzeCode client parse codeB language).cyclomatic_complexity : Int)
          (bigORank (analyzeCode client parse codeA language).big_o)
          (bigORank (analyzeCode client parse codeB language).big_o)) n
        { A := ⟨(analyzeCode client parse codeA language).big_o,
            ((analyzeCode client parse codeA language).cyclomatic_complexity : Int),
            (analyzeCode client parse codeA language).maintainability,
            ((analyzeCode client parse codeA language).risk_score : Int),
            (analyzeCode client parse codeA language).risk_level⟩
          B := ⟨(analyzeCode client parse codeB language).big_o,
            ((analyzeCode client parse codeB language).cyclomatic_complexity : Int),
            (analyzeCode client parse codeB language).maintainability,
            ((analyzeCode client parse codeB language).risk_score : Int),
            (analyzeCode client parse codeB language).risk_level⟩
          delta_cyclomatic :=
            ((analyzeCode client parse codeB language).cyclomatic_complexity : Int) -
              ((analyzeCode client parse codeA language).cyclomatic_complexity : Int)
          delta_risk :=
            ((analyzeCode client parse codeB language).risk_score : Int) -
              ((analyzeCode client parse codeA language).risk_score : Int) } := by
  have g : ¬((analyzeCode client parse codeA language).error = some "CompilationError" ∨
      (analyzeCode client parse codeB language).error = some "CompilationError") := by
    simp [hA, hB]
  simp only [compareCodes]
  rw [if_neg g]
  exact ⟨_, rfl⟩

/-- C3 (amended): `compare(A,B)` and `compare(B,A)` always report mirrored
(negated) deltas, and whenever the two sides differ on any compared metric
(risk score, cyclomatic complexity, Big-O rank) the `better_version` label
is swapped between the two calls; but on a full metric tie both calls
return the label `"A"` — naming opposite code versions. -/
theorem compare_symmetry_amended (client : AIClient) (parse : PyParseFn)
    (codeA codeB : String) (language : Option String)
    (hA : (analyzeCode client parse codeA language).error = none)
    (hB : (analyzeCode client parse codeB language).error = none) :
    ∃ vAB vBA nAB nBA mAB mBA,
      compareCodes client parse codeA codeB language =
        CompareOutcome.ok vAB nAB mAB ∧
      compareCodes client parse codeB codeA language =
        CompareOutcome.ok vBA nBA mBA ∧
      mBA.delta_cyclomatic = -mAB.delta_cyclomatic ∧
      mBA.delta_risk = -mAB.delta_risk ∧
      (metricTriple (analyzeCode client parse codeA language) ≠
          metricTriple (analyzeCode client parse codeB language) →
        (vBA = "B" ↔ vAB = "A")) ∧
      (metricTriple (analyzeCode client parse codeA language) =
          metricTriple (analyzeCode client parse codeB language) →
        vAB = "A" ∧ vBA = "A") := by
  obtain ⟨nAB, hnAB⟩ := compareCodes_ok_shape client parse codeA codeB language
    (by simp [hA]) (by simp [hB])
  obtain ⟨nBA, hnBA⟩ := compareCodes_ok_shape client parse codeB codeA language
    (by simp [hB]) (by simp [hA])
  refine ⟨_, _, nAB, nBA, _, _, hnAB, hnBA, by ring, by ring, ?_, ?_⟩
  · intro hne
    have hne' : ¬(((analyzeCode client parse codeA language).risk_score : Int) =
          ((analyzeCode client parse codeB language).risk_score : Int) ∧
        ((analyzeCode client parse codeA language).cyclomatic_complexity : Int) =
          ((analyzeCode client parse codeB language).cyclomatic_complexity : Int) ∧
        bigORank (analyzeCode client parse codeA language).big_o =
          bigORank (analyzeCode client parse codeB language).big_o) := by
      simpa [metricTriple, Prod.ext_iff] using hne
    rw [pickBetter_swap _ _ _ _ _ _ hne']
    by_cases hv : pickBetter
        ((analyzeCode client parse codeA language).risk_score : Int)
        ((analyzeCode client parse codeB language).risk_score : Int)
        ((analyzeCode client parse codeA language).cyclomatic_complexity : Int)
        ((analyzeCode client parse codeB language).cyclomatic_complexity : Int)
        (bigORank (analyzeCode client parse codeA language).big_o)
        (bigORank (analyzeCode client parse codeB language).big_o) = "A"
    · simp [hv]
    · simp [hv]
  · intro heq
    have h3 := heq
    simp only [metricTriple, Prod.ext_iff] at h3
    obtain ⟨h1, h2, hk⟩ := h3
    constructor
    · rw [h1, h2, hk]
      exact pickBetter_tie _ _ _
    · rw [h1, h2, hk]
      exact pickBetter_tie _ _ _

/-- C3 (counterexample): for the distinct, successfully analyzed snippets
`"x = 1"` and `"y = 2"` (identical metrics), both `compare(A,B)` and
`compare(B,A)` return the label `"A"` — the label is not swapped, so the
two calls identify different code versions as the better one. -/
theorem compare_symmetry_fails_on_tie :
    (analyzeCode stubClient pyParseFail "x = 1" (some "generic")).error = none ∧
    (analyzeCode stubClient pyParseFail "y = 2" (some "generic")).error = none ∧
    (compareCodes stubClient pyParseFail "x = 1" "y = 2" (some "generic")).better? =
      some "A" ∧
    (compareCodes stubClient pyParseFail "y = 2" "x = 1" (some "generic")).better? ≠
      some "B" := by
  decide

/-- C3 (witness): for `"x = 1"` versus a snippet with one loop (differing
cyclomatic complexity), the symmetry conclusion holds with a genuinely
swapped verdict. -/
theorem compare_symmetry_amended_witness :
    ∃ vAB vBA nAB nBA mAB mBA,
      compareCodes stubClient pyParseFail "x = 1" "for a in b:\n    a"
        (some "generic") = CompareOutcome.ok vAB nAB mAB ∧
      compareCodes stubClient pyParseFail "for a in b:\n    a" "x = 1"
        (some "generic") = CompareOutcome.ok vBA nBA mBA ∧
      mBA.delta_cyclomatic = -mAB.delta_cyclomatic ∧
      mBA.delta_risk = -mAB.delta_risk ∧
      (metricTriple (analyzeCode stubClient pyParseFail "x = 1" (some "generic")) ≠
          metricTriple (analyzeCode stubClient pyParseFail "for a in b:\n    a"
            (some "generic")) →
        (vBA = "B" ↔ vAB = "A")) ∧
      (metricTriple (analyzeCode stubClient pyParseFail "x = 1" (some "generic")) =
          metricTriple (analyzeCode stubClient pyParseFail "for a in b:\n    a"
            (some "generic")) →
        vAB = "A" ∧ vBA = "A") :=
  compare_symmetry_amended stubClient pyParseFail "x = 1" "for a in b:\n    a"
    (some "generic") (by decide) (by decide)

/-- Helper: `_pick_better` over a side's metrics agrees with the
spec-side verdict chain `specVerdict`. -/
theorem pickBetter_eq_specVerdict (a b : AnalysisResult) :
    pickBetter (a.risk_score : Int) (b.risk_score : Int)
      (a.cyclomatic_complexity : Int) (b.cyclomatic_complexity : Int)
      (bigORank a.big_o) (bigORank b.big_o) = specVerdict a b := by
  unfold pickBetter specVerdict
  split_ifs <;> first | rfl | omega

/-- C4 (amended): when both sides analyze successfully the verdict is
decided by: strictly lower risk score, then strictly lower cyclomatic
complexity, then strictly lower Big-O rank, with `"A"` on a full tie —
where the rank is the substring-based `_big_o_rank`, under which `O(1)`,
`O(n)` and `O(n^2)` rank 1, 2, 3 but `O(log n)` and `O(2^n)` also rank 2
(the same as `O(n)`), rather than ranking worst. -/
theorem compare_verdict_chain_amended (client : AIClient) (parse : PyParseFn)
    (codeA codeB : String) (language : Option String)
    (hA : (analyzeCode client parse codeA language).error = none)
    (hB : (analyzeCode client parse codeB language).error = none) :
    (∃ n m, compareCodes client parse codeA codeB language =
      CompareOutcome.ok
        (specVerdict (analyzeCode client parse codeA language)
          (analyzeCode client parse codeB language)) n m) ∧
    bigORank "O(1)" = 1 ∧ bigORank "O(n)" = 2 ∧ bigORank "O(n^2)" = 3 ∧
    bigORank "O(log n)" = 2 ∧ bigORank "O(2^n)" = 2 := by
  refine ⟨?_, by decide, by decide, by decide, by decide, by decide⟩
  obtain ⟨n, hn⟩ := compareCodes_ok_shape client parse codeA codeB language
    (by simp [hA]) (by simp [hB])
  rw [pickBetter_eq_specVerdict] at hn
  exact ⟨n, _, hn⟩

/-- C4 (counterexample): `jsA` estimates `O(log n)` and `jsB` estimates
`O(n)` with equal risk scores and cyclomatic complexities; under the
claimed order (`O(log n)` unrecognized, hence worst) side B should win,
but the code ranks both labels 2 and falls through to the `"A"`
default. -/
theorem compare_verdict_log_n_not_worst :
    (analyzeCode stubClient pyParseFail jsA (some "javascript")).error = none ∧
    (analyzeCode stubClient pyParseFail jsB (some "javascript")).error = none ∧
    (analyzeCode stubClient pyParseFail jsA (some "javascript")).risk_score =
      (analyzeCode stubClient pyParseFail jsB (some "javascript")).risk_score ∧
    (analyzeCode stubClient pyParseFail jsA (some "javascript")).cyclomatic_complexity =
      (analyzeCode stubClient pyParseFail jsB (some "javascript")).cyclomatic_complexity ∧
    (analyzeCode stubClient pyParseFail jsA (some "javascript")).big_o = "O(log n)" ∧
    (analyzeCode stubClient pyParseFail jsB (some "javascript")).big_o = "O(n)" ∧
    (compareCodes stubClient pyParseFail jsA jsB (some "javascript")).better? ≠
      some "B" := by
  decide

/-- C4 (witness): the amended verdict-chain theorem instantiated at the
successfully analyzed pair `jsA`, `jsB`. -/
theorem compare_verdict_chain_amended_witness :
    (∃ n m, compareCodes stubClient pyParseFail jsA jsB (some "javascript") =
      CompareOutcome.ok
        (specVerdict (analyzeCode stubClient pyParseFail jsA (some "javascript"))
          (analyzeCode stubClient pyParseFail jsB (some "javascript"))) n m) ∧
    bigORank "O(1)" = 1 ∧ bigORank "O(n)" = 2 ∧ bigORank "O(n^2)" = 3 ∧
    bigORank "O(log n)" = 2 ∧ bigORank "O(2^n)" = 2 :=
  compare_verdict_chain_amended stubClient pyParseFail jsA jsB
    (some "javascript") (by decide) (by decide)
